import Mathlib

/-!
# Verification of the kpi front-end components

Shallow embedding of the presentation-layer components of this repository:

* `UserAssetPermsEditor` (user-permissions editor form): checkbox validity
  rules over `CHECKBOX_PERM_PAIRS`, username checking, form submission.
* `formViewTabs` (`getFormDataTabs`) and the `Usage` dashboard.
* `ProjectQuickActions` (archive / unarchive button visibility).

External collaborators (`permConfig`, the perm parser module `permParser`,
`stores.userExists`, `actions.*`, route constants, `navigator.onLine`) are
not part of this repository's source; they are modelled as parameters
(`PermConfig`, function-valued `Env` fields) so that every theorem is
quantified over their behaviour.  React `setState` is modelled as a
synchronous state update (the handlers run outside React event batching);
dispatched actions and invoked callbacks are modelled as an `Effect` list.
-/

namespace Kpi

/-- The ten checkbox state fields of `UserAssetPermsEditor`, i.e. the keys of
`CHECKBOX_PERM_PAIRS` (source: part_001, lines 27–38). -/
inductive Checkbox
  | formView
  | formEdit
  | submissionsAdd
  | submissionsAddPartial
  | submissionsView
  | submissionsViewPartial
  | submissionsEdit
  | submissionsEditPartial
  | submissionsValidate
  | submissionsValidatePartial
deriving DecidableEq, Repr

/-- The permission codenames appearing in `CHECKBOX_PERM_PAIRS`.  In
`js/constants` the `PERMISSIONS_CODENAMES` map sends each codename string to
itself, so we identify a codename with its value. -/
inductive Codename
  | view_asset
  | change_asset
  | add_submissions
  | partial_submissions
  | view_submissions
  | change_submissions
  | validate_submissions
deriving DecidableEq, Repr

/-- The JS string name of each checkbox state field. -/
def checkboxName : Checkbox → String
  | .formView => "formView"
  | .formEdit => "formEdit"
  | .submissionsAdd => "submissionsAdd"
  | .submissionsAddPartial => "submissionsAddPartial"
  | .submissionsView => "submissionsView"
  | .submissionsViewPartial => "submissionsViewPartial"
  | .submissionsEdit => "submissionsEdit"
  | .submissionsEditPartial => "submissionsEditPartial"
  | .submissionsValidate => "submissionsValidate"
  | .submissionsValidatePartial => "submissionsValidatePartial"

/-- JS `String.prototype.endsWith` (used as `` pairCheckbox.endsWith('Partial') ``
in `applyValidityRules`), implemented over character lists. -/
def jsEndsWith (s sfx : String) : Bool :=
  sfx.toList.isSuffixOf s.toList

/-- `CHECKBOX_PERM_PAIRS` (part_001, lines 27–38), in the `Map`'s insertion
order, which is the order all three `forEach` passes iterate in. -/
def CHECKBOX_PERM_PAIRS : List (Checkbox × Codename) :=
  [ (.formView, .view_asset),
    (.formEdit, .change_asset),
    (.submissionsAdd, .add_submissions),
    (.submissionsAddPartial, .partial_submissions),
    (.submissionsView, .view_submissions),
    (.submissionsViewPartial, .partial_submissions),
    (.submissionsEdit, .change_submissions),
    (.submissionsEditPartial, .partial_submissions),
    (.submissionsValidate, .validate_submissions),
    (.submissionsValidatePartial, .partial_submissions) ]

/-- The component state of `UserAssetPermsEditor` (part_001, lines 55–91).
`formEditDisabled` is not present in the constructor's object literal but is
created by the first pass of `applyValidityRules`, so it is a state field.
`usernamesBeingChecked` is a JS `Set`; we model it as a duplicate-free list. -/
structure PermState where
  usernamesBeingChecked : List String
  isSubmitPending : Bool
  isEditingUsername : Bool
  username : String
  formView : Bool
  formViewDisabled : Bool
  formEdit : Bool
  formEditDisabled : Bool
  submissionsView : Bool
  submissionsViewDisabled : Bool
  submissionsViewPartial : Bool
  submissionsViewPartialDisabled : Bool
  submissionsViewPartialUsers : List String
  submissionsAdd : Bool
  submissionsAddDisabled : Bool
  submissionsAddPartial : Bool
  submissionsAddPartialDisabled : Bool
  submissionsAddPartialUsers : List String
  submissionsEdit : Bool
  submissionsEditDisabled : Bool
  submissionsEditPartial : Bool
  submissionsEditPartialDisabled : Bool
  submissionsEditPartialUsers : List String
  submissionsValidate : Bool
  submissionsValidateDisabled : Bool
  submissionsValidatePartial : Bool
  submissionsValidatePartialDisabled : Bool
  submissionsValidatePartialUsers : List String
deriving DecidableEq, Repr

/-- Dynamic read `stateObj[checkbox]`. -/
def getCB (s : PermState) : Checkbox → Bool
  | .formView => s.formView
  | .formEdit => s.formEdit
  | .submissionsAdd => s.submissionsAdd
  | .submissionsAddPartial => s.submissionsAddPartial
  | .submissionsView => s.submissionsView
  | .submissionsViewPartial => s.submissionsViewPartial
  | .submissionsEdit => s.submissionsEdit
  | .submissionsEditPartial => s.submissionsEditPartial
  | .submissionsValidate => s.submissionsValidate
  | .submissionsValidatePartial => s.submissionsValidatePartial

/-- Dynamic write `stateObj[checkbox] = b`. -/
def setCB (s : PermState) (c : Checkbox) (b : Bool) : PermState :=
  match c with
  | .formView => { s with formView := b }
  | .formEdit => { s with formEdit := b }
  | .submissionsAdd => { s with submissionsAdd := b }
  | .submissionsAddPartial => { s with submissionsAddPartial := b }
  | .submissionsView => { s with submissionsView := b }
  | .submissionsViewPartial => { s with submissionsViewPartial := b }
  | .submissionsEdit => { s with submissionsEdit := b }
  | .submissionsEditPartial => { s with submissionsEditPartial := b }
  | .submissionsValidate => { s with submissionsValidate := b }
  | .submissionsValidatePartial => { s with submissionsValidatePartial := b }

/-- Dynamic write `` stateObj[`${checkbox}Disabled`] = b ``. -/
def setDisabledFlag (s : PermState) (c : Checkbox) (b : Bool) : PermState :=
  match c with
  | .formView => { s with formViewDisabled := b }
  | .formEdit => { s with formEditDisabled := b }
  | .submissionsAdd => { s with submissionsAddDisabled := b }
  | .submissionsAddPartial => { s with submissionsAddPartialDisabled := b }
  | .submissionsView => { s with submissionsViewDisabled := b }
  | .submissionsViewPartial => { s with submissionsViewPartialDisabled := b }
  | .submissionsEdit => { s with submissionsEditDisabled := b }
  | .submissionsEditPartial => { s with submissionsEditPartialDisabled := b }
  | .submissionsValidate => { s with submissionsValidateDisabled := b }
  | .submissionsValidatePartial => { s with submissionsValidatePartialDisabled := b }

/-- Dynamic read `` stateObj[`${checkbox}Users`] `` for the four partial
checkboxes; the other checkboxes have no `Users` field. -/
def partialUsers (s : PermState) : Checkbox → List String
  | .submissionsAddPartial => s.submissionsAddPartialUsers
  | .submissionsViewPartial => s.submissionsViewPartialUsers
  | .submissionsEditPartial => s.submissionsEditPartialUsers
  | .submissionsValidatePartial => s.submissionsValidatePartialUsers
  | _ => []

/-- Dynamic write `` stateObj[`${checkbox}Users`] = [] ``.  Only reached for
checkboxes whose name ends with `'Partial'`; identity on the others. -/
def setPartialUsersEmpty (s : PermState) : Checkbox → PermState
  | .submissionsAddPartial => { s with submissionsAddPartialUsers := [] }
  | .submissionsViewPartial => { s with submissionsViewPartialUsers := [] }
  | .submissionsEditPartial => { s with submissionsEditPartialUsers := [] }
  | .submissionsValidatePartial => { s with submissionsValidatePartialUsers := [] }
  | _ => s

/-- `getCheckboxPermissionPair` (part_001, lines 313–315):
`CHECKBOX_PERM_PAIRS.get(checkboxName)`; total because every checkbox is a
key of the map. -/
def getCheckboxPermissionPair : Checkbox → Codename
  | .formView => .view_asset
  | .formEdit => .change_asset
  | .submissionsAdd => .add_submissions
  | .submissionsAddPartial => .partial_submissions
  | .submissionsView => .view_submissions
  | .submissionsViewPartial => .partial_submissions
  | .submissionsEdit => .change_submissions
  | .submissionsEditPartial => .partial_submissions
  | .submissionsValidate => .validate_submissions
  | .submissionsValidatePartial => .partial_submissions

/-- `getPermissionCheckboxPairs` (part_001, lines 321–329): all checkboxes
paired with the given codename, in map order. -/
def getPermissionCheckboxPairs (permCodename : Codename) : List Checkbox :=
  (CHECKBOX_PERM_PAIRS.filter (fun pair => pair.2 = permCodename)).map (fun pair => pair.1)

/-- A permission definition from the external `permConfig` store: its API
URL, codename, and the URLs of implied / contradictory permissions. -/
structure PermDef where
  url : String
  codename : Codename
  implied : List String
  contradictory : List String

/-- The external `permConfig` store (imported module, not part of this
repository's source).  `getPermission` looks a permission up by URL; the
component dereferences its result without a check, so the store's contract
makes it total on the URLs it hands out.  `getPermissionByCodename` may
return `undefined` (`none`), which the component checks for. -/
structure PermConfig where
  getPermissionByCodename : Codename → Option PermDef
  getPermission : String → PermDef

/-- `getImpliedPermissions` (part_001, lines 331–340).  The inner
`PERMISSIONS_CODENAMES.get` lookup is the identity on codenames. -/
def getImpliedPermissions (cfg : PermConfig) (permCodename : Codename) : List String :=
  match cfg.getPermissionByCodename permCodename with
  | some permDef => permDef.implied
  | none => []

/-- `getContradictoryPermissions` (part_001, lines 342–351). -/
def getContradictoryPermissions (cfg : PermConfig) (permCodename : Codename) : List String :=
  match cfg.getPermissionByCodename permCodename with
  | some permDef => permDef.contradictory
  | none => []

/-- `applyValidityRulesForCheckbox` (part_001, lines 173–202): for a checked
checkbox, every checkbox of an implied permission is checked and disabled,
then every checkbox of a contradictory permission is unchecked and
disabled; returns the state unchanged for an unchecked checkbox. -/
def applyValidityRulesForCheckbox (cfg : PermConfig) (checkboxName : Checkbox)
    (stateObj : PermState) : PermState :=
  if getCB stateObj checkboxName = false then stateObj
  else
    let permissionPair := getCheckboxPermissionPair checkboxName
    let impliedPerms := getImpliedPermissions cfg permissionPair
    let contradictoryPerms := getContradictoryPermissions cfg permissionPair
    let afterImplied := impliedPerms.foldl
      (fun st permUrl =>
        let impliedPermDef := cfg.getPermission permUrl
        (getPermissionCheckboxPairs impliedPermDef.codename).foldl
          (fun st impliedCheckbox =>
            setDisabledFlag (setCB st impliedCheckbox true) impliedCheckbox true)
          st)
      stateObj
    contradictoryPerms.foldl
      (fun st permUrl =>
        let contradictoryPermDef := cfg.getPermission permUrl
        (getPermissionCheckboxPairs contradictoryPermDef.codename).foldl
          (fun st contradictoryCheckbox =>
            setDisabledFlag (setCB st contradictoryCheckbox false) contradictoryCheckbox true)
          st)
      afterImplied

/-- `applyValidityRules` (part_001, lines 146–165): three `forEach` passes
over `CHECKBOX_PERM_PAIRS` — enable all checkboxes, apply the per-checkbox
rules, then clear the users lists of unchecked partial checkboxes. -/
def applyValidityRules (cfg : PermConfig) (stateObj : PermState) : PermState :=
  let s1 := CHECKBOX_PERM_PAIRS.foldl
    (fun st pair => setDisabledFlag st pair.1 false) stateObj
  let s2 := CHECKBOX_PERM_PAIRS.foldl
    (fun st pair => applyValidityRulesForCheckbox cfg pair.1 st) s1
  CHECKBOX_PERM_PAIRS.foldl
    (fun st pair =>
      if jsEndsWith (checkboxName pair.1) "Partial" ∧ getCB st pair.1 = false then
        setPartialUsersEmpty st pair.1
      else st)
    s2

/-- `onCheckboxChange` (part_001, lines 208–213): write the toggled value
into the state, then replace the state with `applyValidityRules` of it. -/
def onCheckboxChange (cfg : PermConfig) (id : Checkbox) (isChecked : Bool)
    (s : PermState) : PermState :=
  applyValidityRules cfg (setCB s id isChecked)

/-- A permission object as exchanged with the backend: the perm parser
produces them and `props.nonOwnerPerms` holds them.  Only the `user` field
is inspected by this component (the `submit` filter); the rest is opaque
payload. -/
structure Perm where
  user : String
  permission : String
deriving DecidableEq, Repr

/-- The output object of `getFormData` (part_001, lines 410–428): a field is
present (`some`) exactly when the corresponding permission is assignable. -/
structure FormData where
  username : String
  formView : Option Bool
  formEdit : Option Bool
  submissionsAdd : Option Bool
  submissionsView : Option Bool
  submissionsViewPartial : Option Bool
  submissionsViewPartialUsers : Option (List String)
  submissionsEdit : Option Bool
  submissionsValidate : Option Bool
deriving DecidableEq, Repr

/-- Observable effects of the component's handlers: dispatched actions,
invocations of the parent's `onSubmitEnd` callback, and UI notifications. -/
inductive Effect
  | bulkSetAssetPermissions (uid : String) (perms : List Perm)
  | submitEnd (isSuccess : Bool)
  | notifyWarning (message : String)
  | checkUsernameAction (username : String)
deriving DecidableEq, Repr

/-- The component's props together with its external collaborators:
`permConfig`, the perm parser's `parseFormData`, `buildUserUrl` from
`js/utils`, `stores.userExists.checkUsername` (a boolean for a known
username, `undefined` = `none` otherwise), and `navigator.onLine`. -/
structure Env where
  uid : String
  assignablePerms : List String
  nonOwnerPerms : List Perm
  onSubmitEndIsFunction : Bool
  permConfig : PermConfig
  parseFormData : FormData → List Perm
  buildUserUrl : String → String
  checkUsername : String → Option Bool
  isOnline : Bool

/-- `ANON_USERNAME` from `js/constants` (external constant). -/
def ANON_USERNAME : String := "AnonymousUser"

/-- `isAssignable` (part_001, lines 363–372); the `PERMISSIONS_CODENAMES.get`
lookup is the identity on codenames, `assignablePerms.has` is membership of
the URL among the map's keys. -/
def isAssignable (env : Env) (permCodename : Codename) : Bool :=
  match env.permConfig.getPermissionByCodename permCodename with
  | none => false
  | some permDef => env.assignablePerms.contains permDef.url

/-- `getFormData` (part_001, lines 410–428). -/
def getFormData (env : Env) (s : PermState) : FormData :=
  { username := s.username,
    formView := if isAssignable env .view_asset then some s.formView else none,
    formEdit := if isAssignable env .change_asset then some s.formEdit else none,
    submissionsAdd := if isAssignable env .add_submissions then some s.submissionsAdd else none,
    submissionsView := if isAssignable env .view_submissions then some s.submissionsView else none,
    submissionsViewPartial :=
      if isAssignable env .partial_submissions then some s.submissionsViewPartial else none,
    submissionsViewPartialUsers :=
      if isAssignable env .partial_submissions then some s.submissionsViewPartialUsers else none,
    submissionsEdit := if isAssignable env .change_submissions then some s.submissionsEdit else none,
    submissionsValidate :=
      if isAssignable env .validate_submissions then some s.submissionsValidate else none }

/-- `isPartialValid` (part_001, lines 403–405): a checked partial checkbox
must have a non-empty users list. -/
def isPartialValid (s : PermState) (partialCheckboxName : Checkbox) : Bool :=
  if getCB s partialCheckboxName then (partialUsers s partialCheckboxName).length != 0 else true

/-- `isSubmitEnabled` (part_001, lines 377–398). -/
def isSubmitEnabled (s : PermState) : Bool :=
  let isAnyCheckboxChecked :=
    CHECKBOX_PERM_PAIRS.any (fun pair => getCB s pair.1 == true)
  isAnyCheckboxChecked
    && isPartialValid s .submissionsViewPartial
    && isPartialValid s .submissionsAddPartial
    && isPartialValid s .submissionsEditPartial
    && isPartialValid s .submissionsValidatePartial
    && !s.isSubmitPending
    && !s.isEditingUsername
    && decide (s.username.length > 0)
    && s.usernamesBeingChecked.length == 0
    && s.username != ANON_USERNAME

/-- `notifyParentAboutSubmitEnd` (part_001, lines 126–133): invokes the
parent's callback only when no submission is pending and the callback is a
function. -/
def notifyParentAboutSubmitEnd (env : Env) (s : PermState) (isSuccess : Bool) : List Effect :=
  if !s.isSubmitPending && env.onSubmitEndIsFunction then [Effect.submitEnd isSuccess] else []

/-- `onBulkSetAssetPermissionCompleted` (part_001, lines 116–119): clear the
pending flag, then notify the parent of success. -/
def onBulkSetAssetPermissionCompleted (env : Env) (s : PermState) :
    PermState × List Effect :=
  let s1 := { s with isSubmitPending := false }
  (s1, notifyParentAboutSubmitEnd env s1 true)

/-- `onBulkSetAssetPermissionFailed` (part_001, lines 121–124): clear the
pending flag, then notify the parent of failure. -/
def onBulkSetAssetPermissionFailed (env : Env) (s : PermState) :
    PermState × List Effect :=
  let s1 := { s with isSubmitPending := false }
  (s1, notifyParentAboutSubmitEnd env s1 false)

/-- `submit` (part_001, lines 430–459). -/
def submit (env : Env) (s : PermState) : PermState × List Effect :=
  if !isSubmitEnabled s then (s, [])
  else
    let formData := getFormData env s
    let parsedUser := env.parseFormData formData
    if parsedUser.length > 0 then
      let otherUserPerms :=
        env.nonOwnerPerms.filter (fun perm => perm.user != env.buildUserUrl formData.username)
      ({ s with isSubmitPending := true },
        [Effect.bulkSetAssetPermissions env.uid (otherUserPerms ++ parsedUser)])
    else
      (s, notifyParentAboutSubmitEnd env s true)

/-- `notifyUnknownUser` (part_001, lines 279–283): shows a warning toast only
when the browser is online (`navigator.onLine`). -/
def notifyUnknownUser (env : Env) (username : String) : List Effect :=
  if env.isOnline then [Effect.notifyWarning ("User not found: " ++ username)] else []

/-- `checkUsernameSync` (part_001, lines 265–267): delegates to the external
`stores.userExists.checkUsername`. -/
def checkUsernameSync (env : Env) (username : String) : Option Bool :=
  env.checkUsername username

/-- `checkUsernameAsync` (part_001, lines 272–277): add the username to the
`usernamesBeingChecked` set and dispatch `actions.misc.checkUsername`. -/
def checkUsernameAsync (_env : Env) (s : PermState) (username : String) :
    PermState × List Effect :=
  let usernamesBeingChecked :=
    if username ∈ s.usernamesBeingChecked then s.usernamesBeingChecked
    else s.usernamesBeingChecked ++ [username]
  ({ s with usernamesBeingChecked := usernamesBeingChecked },
    [Effect.checkUsernameAction username])

/-- `onUsernameChangeEnd` (part_001, lines 229–243). -/
def onUsernameChangeEnd (env : Env) (s : PermState) : PermState × List Effect :=
  let s0 := { s with isEditingUsername := false }
  if s0.username = "" then (s0, [])
  else
    match checkUsernameSync env s0.username with
    | none => checkUsernameAsync env s0 s0.username
    | some false => ({ s0 with username := "" }, notifyUnknownUser env s0.username)
    | some true => (s0, [])

/-! ## Specification-side reformulation of `applyValidityRules` (for C1/C5)

The three passes of `applyValidityRules`, written independently from the
spec's description: a simultaneous reset of all `Disabled` flags, the rule
pass expressed over implied/contradictory *codenames*, and a simultaneous
cleanup of the users lists of unchecked partial checkboxes. -/

/-- Spec reading of pass 1: every checkbox's `Disabled` flag is reset to
`false`, as one simultaneous update. -/
def resetDisabledPass (s : PermState) : PermState :=
  { s with
    formViewDisabled := false,
    formEditDisabled := false,
    submissionsAddDisabled := false,
    submissionsAddPartialDisabled := false,
    submissionsViewDisabled := false,
    submissionsViewPartialDisabled := false,
    submissionsEditDisabled := false,
    submissionsEditPartialDisabled := false,
    submissionsValidateDisabled := false,
    submissionsValidatePartialDisabled := false }

/-- The codenames of the permissions implied by `p`, per the configuration. -/
def impliedCodenames (cfg : PermConfig) (p : Codename) : List Codename :=
  (getImpliedPermissions cfg p).map (fun url => (cfg.getPermission url).codename)

/-- The codenames of the permissions contradictory to `p`. -/
def contradictoryCodenames (cfg : PermConfig) (p : Codename) : List Codename :=
  (getContradictoryPermissions cfg p).map (fun url => (cfg.getPermission url).codename)

/-- Spec reading of one step of pass 2: for a checked checkbox, every
checkbox whose permission is implied by its permission is set checked and
disabled, and every checkbox whose permission is contradictory to it is set
unchecked and disabled. -/
def specRulesStep (cfg : PermConfig) (c : Checkbox) (s : PermState) : PermState :=
  if getCB s c then
    let p := getCheckboxPermissionPair c
    let afterImplied := (impliedCodenames cfg p).foldl
      (fun st d =>
        (getPermissionCheckboxPairs d).foldl
          (fun st c2 => setDisabledFlag (setCB st c2 true) c2 true) st)
      s
    (contradictoryCodenames cfg p).foldl
      (fun st d =>
        (getPermissionCheckboxPairs d).foldl
          (fun st c2 => setDisabledFlag (setCB st c2 false) c2 true) st)
      afterImplied
  else s

/-- Spec reading of pass 2: the rule step applied to each checkbox in map
order. -/
def rulesPass (cfg : PermConfig) (s : PermState) : PermState :=
  (CHECKBOX_PERM_PAIRS.map (fun pair => pair.1)).foldl
    (fun st c => specRulesStep cfg c st) s

/-- Spec reading of pass 3: the users list of every partial checkbox that
ends up unchecked is set to the empty list, as one simultaneous update. -/
def cleanupPass (s : PermState) : PermState :=
  { s with
    submissionsAddPartialUsers :=
      if s.submissionsAddPartial then s.submissionsAddPartialUsers else [],
    submissionsViewPartialUsers :=
      if s.submissionsViewPartial then s.submissionsViewPartialUsers else [],
    submissionsEditPartialUsers :=
      if s.submissionsEditPartial then s.submissionsEditPartialUsers else [],
    submissionsValidatePartialUsers :=
      if s.submissionsValidatePartial then s.submissionsValidatePartialUsers else [] }

/-- The invariant of claim C5: an unchecked partial checkbox has an empty
users list. -/
def partialUsersInvariant (s : PermState) : Prop :=
  (s.submissionsViewPartial = false → s.submissionsViewPartialUsers = []) ∧
  (s.submissionsAddPartial = false → s.submissionsAddPartialUsers = []) ∧
  (s.submissionsEditPartial = false → s.submissionsEditPartialUsers = []) ∧
  (s.submissionsValidatePartial = false → s.submissionsValidatePartialUsers = [])

/-! ## `formViewTabs.es6`: `getFormDataTabs` -/

/-- JS `String.prototype.replace` with a string pattern replaces only the
first occurrence; list-of-characters implementation. -/
def replaceFirstAux (pat repl : List Char) : List Char → List Char
  | [] => []
  | c :: rest =>
    if pat.isPrefixOf (c :: rest) then repl ++ (c :: rest).drop pat.length
    else c :: replaceFirstAux pat repl rest

/-- JS `s.replace(pat, repl)` for a string pattern: first occurrence only. -/
def replaceFirst (s pat repl : String) : String :=
  String.mk (replaceFirstAux pat.toList repl.toList s.toList)

/-- The route templates used by `getFormDataTabs`, from the external
`js/router/routerConstants` module; each contains a `':uid'` placeholder. -/
structure Routes where
  FORM_TABLE : String
  FORM_REPORT : String
  FORM_GALLERY : String
  FORM_DOWNLOADS : String
  FORM_MAP : String

/-- One tab object returned by `getFormDataTabs`; `isDisabled` is `none`
when the object literal carries no such key. -/
structure DataTab where
  label : String
  iconName : String
  path : String
  isDisabled : Option Bool
deriving DecidableEq, Repr

/-- The i18n translation function `t` from `js/utils` (external); identity
in the source locale. -/
def t (s : String) : String := s

/-- `getFormDataTabs` (formViewTabs.es6, lines 16–45). -/
def getFormDataTabs (routes : Routes) (assetUid : String) (hasPartialView : Bool) :
    List DataTab :=
  [ { label := t "Table", iconName := "table",
      path := replaceFirst routes.FORM_TABLE ":uid" assetUid, isDisabled := none },
    { label := t "Reports", iconName := "reports",
      path := replaceFirst routes.FORM_REPORT ":uid" assetUid, isDisabled := none },
    { label := t "Gallery", iconName := "gallery",
      path := replaceFirst routes.FORM_GALLERY ":uid" assetUid,
      isDisabled := some hasPartialView },
    { label := t "Downloads", iconName := "download",
      path := replaceFirst routes.FORM_DOWNLOADS ":uid" assetUid, isDisabled := none },
    { label := t "Map", iconName := "map-view",
      path := replaceFirst routes.FORM_MAP ":uid" assetUid, isDisabled := none } ]

/-! ## The `Usage` dashboard (second file of formViewTabs.es6)

JS numbers are modelled over `ℚ`; the two divisions in the component are
plain JS `/`. -/

/-- The `UsageState` of the `Usage` function component. -/
structure UsageState where
  storage : ℚ
  monthlySubmissions : ℚ
  transcriptionMinutes : ℚ
  translationChars : ℚ
deriving DecidableEq

/-- The fields of the `getUsage` API response read by the component. -/
structure UsageApiData where
  total_storage_bytes : ℚ
  total_submission_count_current_month : ℚ
  total_nlp_asr_seconds : ℚ
  total_nlp_mt_characters : ℚ

/-- The `useState` initial value of the `Usage` component. -/
def initialUsage : UsageState :=
  { storage := 0,
    monthlySubmissions := 0,
    transcriptionMinutes := 0,
    translationChars := 0 }

/-- The state set once `getUsage` resolves (the `setUsage` call in the
`useEffect`). -/
def usageAfterLoad (data : UsageApiData) : UsageState :=
  { storage := data.total_storage_bytes / 1000000,
    monthlySubmissions := data.total_submission_count_current_month,
    transcriptionMinutes := data.total_nlp_asr_seconds / 60,
    translationChars := data.total_nlp_mt_characters }

/-- The component's usage state as a function of whether the API call has
resolved yet. -/
def usageDisplayed : Option UsageApiData → UsageState
  | none => initialUsage
  | some data => usageAfterLoad data

/-! ## `ProjectQuickActions` (projectQuickActions.tsx) -/

/-- The fields of the `asset` prop that the quick-actions component reads
for the archive / unarchive buttons.  `hasPermissionsField` models the
`'permissions' in props.asset` test (a `ProjectViewAsset` lacks the
property). -/
structure QAAsset where
  hasPermissionsField : Bool
  asset_type : String
  has_deployment : Bool
  deployment__active : Bool
deriving DecidableEq, Repr

/-- `ASSET_TYPES.survey.id` from `js/constants` (external constant). -/
def ASSET_TYPES_survey_id : String := "survey"

/-- `isEditingPossible` (projectQuickActions.tsx, lines 33–36): `userCan` is
the external permission check, consulted only when the asset has a
`permissions` property. -/
def isEditingPossible (userCan : String → QAAsset → Bool) (asset : QAAsset) : Bool :=
  if asset.hasPermissionsField then userCan "change_asset" asset else false

/-- The render guard of the 'Archive project' button
(projectQuickActions.tsx, lines 51–54). -/
def archiveButtonShown (userCan : String → QAAsset → Bool) (asset : QAAsset) : Bool :=
  isEditingPossible userCan asset
    && asset.asset_type == ASSET_TYPES_survey_id
    && asset.has_deployment
    && asset.deployment__active

/-- The render guard of the 'Unarchive project' button
(projectQuickActions.tsx, lines 65–68). -/
def unarchiveButtonShown (userCan : String → QAAsset → Bool) (asset : QAAsset) : Bool :=
  isEditingPossible userCan asset
    && asset.asset_type == ASSET_TYPES_survey_id
    && asset.has_deployment
    && asset.deployment__active

/-! ## Helper lemmas -/

/-- The first `forEach` pass of `applyValidityRules` is the simultaneous
reset of all `Disabled` flags. -/
theorem resetFold_eq (s : PermState) :
    CHECKBOX_PERM_PAIRS.foldl (fun st pair => setDisabledFlag st pair.1 false) s
      = resetDisabledPass s := by
  obtain ⟨_, _, _, _, _, _, _, _, _, _, _, _, _, _, _, _, _, _, _, _, _, _, _, _, _, _, _, _⟩ := s
  rfl

/-- The spec-side rule step agrees with `applyValidityRulesForCheckbox`. -/
theorem specRulesStep_eq (cfg : PermConfig) (c : Checkbox) (s : PermState) :
    specRulesStep cfg c s = applyValidityRulesForCheckbox cfg c s := by
  unfold specRulesStep applyValidityRulesForCheckbox
  cases h : getCB s c <;>
    simp [h, impliedCodenames, contradictoryCodenames, List.foldl_map]

/-- The second `forEach` pass of `applyValidityRules` is `rulesPass`. -/
theorem rulesFold_eq (cfg : PermConfig) (s : PermState) :
    CHECKBOX_PERM_PAIRS.foldl (fun st pair => applyValidityRulesForCheckbox cfg pair.1 st) s
      = rulesPass cfg s := by
  unfold rulesPass
  rw [List.foldl_map]
  simp only [specRulesStep_eq]

/-- The third `forEach` pass of `applyValidityRules` is the simultaneous
cleanup `cleanupPass`: the four conditional updates touch pairwise disjoint
fields and read only checkbox values, which the pass never modifies. -/
theorem cleanupFold_eq (s : PermState) :
    CHECKBOX_PERM_PAIRS.foldl
      (fun st pair =>
        if jsEndsWith (checkboxName pair.1) "Partial" ∧ getCB st pair.1 = false then
          setPartialUsersEmpty st pair.1
        else st)
      s = cleanupPass s := by
  obtain ⟨ubc, pend, edit, un, fv, fvd, fe, fed, sv, svd, svp, svpd, svpu,
    sa, sad, sap, sapd, sapu, se, sed, sep, sepd, sepu,
    sval, svald, svalp, svalpd, svalpu⟩ := s
  cases sap <;> cases svp <;> cases sep <;> cases svalp <;>
    simp +decide [CHECKBOX_PERM_PAIRS, checkboxName, jsEndsWith, getCB,
      setPartialUsersEmpty, cleanupPass]

/-- `applyValidityRules` decomposes into the three spec-side passes. -/
theorem applyValidityRules_eq_passes (cfg : PermConfig) (s : PermState) :
    applyValidityRules cfg s = cleanupPass (rulesPass cfg (resetDisabledPass s)) := by
  have hdef : applyValidityRules cfg s =
      CHECKBOX_PERM_PAIRS.foldl
        (fun st pair =>
          if jsEndsWith (checkboxName pair.1) "Partial" ∧ getCB st pair.1 = false then
            setPartialUsersEmpty st pair.1
          else st)
        (CHECKBOX_PERM_PAIRS.foldl
          (fun st pair => applyValidityRulesForCheckbox cfg pair.1 st)
          (CHECKBOX_PERM_PAIRS.foldl
            (fun st pair => setDisabledFlag st pair.1 false) s)) := rfl
  rw [hdef, resetFold_eq, rulesFold_eq, cleanupFold_eq]

/-- `cleanupPass` establishes the partial-users invariant. -/
theorem cleanupPass_invariant (s : PermState) : partialUsersInvariant (cleanupPass s) := by
  unfold partialUsersInvariant cleanupPass
  refine ⟨?_, ?_, ?_, ?_⟩ <;> intro h <;> simp_all

/-! ## Concrete instances for witnesses -/

/-- A concrete permission definition. -/
def exPermDef : PermDef :=
  { url := "https://kf/permissions/view_asset/", codename := .view_asset,
    implied := [], contradictory := [] }

/-- A concrete permissions configuration (no implications, no
contradictions). -/
def exPermConfig : PermConfig :=
  { getPermissionByCodename := fun _ => none, getPermission := fun _ => exPermDef }

/-- A concrete form state: username `"bob"`, everything else unchecked and
empty. -/
def exState : PermState :=
  { usernamesBeingChecked := [], isSubmitPending := false, isEditingUsername := false,
    username := "bob",
    formView := false, formViewDisabled := false,
    formEdit := false, formEditDisabled := false,
    submissionsView := false, submissionsViewDisabled := false,
    submissionsViewPartial := false, submissionsViewPartialDisabled := false,
    submissionsViewPartialUsers := [],
    submissionsAdd := false, submissionsAddDisabled := false,
    submissionsAddPartial := false, submissionsAddPartialDisabled := false,
    submissionsAddPartialUsers := [],
    submissionsEdit := false, submissionsEditDisabled := false,
    submissionsEditPartial := false, submissionsEditPartialDisabled := false,
    submissionsEditPartialUsers := [],
    submissionsValidate := false, submissionsValidateDisabled := false,
    submissionsValidatePartial := false, submissionsValidatePartialDisabled := false,
    submissionsValidatePartialUsers := [] }

/-- `exState` with one checkbox checked, so that submission is enabled. -/
def exStateEnabled : PermState := { exState with formView := true }

/-- `exState` with the anonymous username. -/
def exStateAnon : PermState := { exState with username := ANON_USERNAME }

/-- A concrete environment: empty collaborator data, parser returning no
permissions, a known username, browser online. -/
def exEnv : Env :=
  { uid := "aBcD1234", assignablePerms := [], nonOwnerPerms := [],
    onSubmitEndIsFunction := true, permConfig := exPermConfig,
    parseFormData := fun _ => [],
    buildUserUrl := fun u => "https://kf/users/" ++ u ++ "/",
    checkUsername := fun _ => some true, isOnline := true }

/-- `exEnv` with the browser offline and the username check answering
`false`. -/
def exEnvOffline : Env :=
  { exEnv with isOnline := false, checkUsername := fun _ => some false }

/-- A concrete `userCan` that grants everything. -/
def exUserCan : String → QAAsset → Bool := fun _ _ => true

/-- A deployed, active survey asset without a `permissions` property. -/
def exAssetNoPerms : QAAsset :=
  { hasPermissionsField := false, asset_type := "survey",
    has_deployment := true, deployment__active := true }

/-! ## Claim theorems -/

/-- C1: for every form state, `applyValidityRules` transforms it in three
ordered passes over `CHECKBOX_PERM_PAIRS`: first every checkbox's `Disabled`
flag is reset to `false` (`resetDisabledPass`); then, for each checkbox that
is checked, in map order, every checkbox whose permission is implied by that
checkbox's permission is set checked and disabled and every checkbox whose
permission is contradictory to it is set unchecked and disabled
(`rulesPass`); finally, every checkbox whose name ends with `'Partial'` and
which ends up unchecked has its users list set to the empty list
(`cleanupPass`). -/
theorem applyValidityRules_three_ordered_passes (cfg : PermConfig) (s : PermState) :
    applyValidityRules cfg s = cleanupPass (rulesPass cfg (resetDisabledPass s)) :=
  applyValidityRules_eq_passes cfg s

/-- C2: `onCheckboxChange` sets the state field named `id` to `isChecked` —
and changes no other checkbox — and then replaces the state with
`applyValidityRules` applied to that updated state; it is the single path by
which a checkbox toggle updates the state. -/
theorem onCheckboxChange_reapplies_rules (cfg : PermConfig) (id : Checkbox)
    (isChecked : Bool) (s : PermState) :
    onCheckboxChange cfg id isChecked s = applyValidityRules cfg (setCB s id isChecked) ∧
    getCB (setCB s id isChecked) id = isChecked ∧
    ∀ c : Checkbox, c ≠ id → getCB (setCB s id isChecked) c = getCB s c := by
  refine ⟨rfl, ?_, ?_⟩
  · cases id <;> rfl
  · intro c hc
    cases id <;> cases c <;> simp_all [getCB, setCB]

/-- Witness for C2 at a concrete input. -/
theorem onCheckboxChange_reapplies_rules_witness :
    onCheckboxChange exPermConfig .formView true exState
        = applyValidityRules exPermConfig (setCB exState .formView true) ∧
    getCB (setCB exState .formView true) .formView = true ∧
    getCB (setCB exState .formView true) .formEdit = getCB exState .formEdit :=
  ⟨(onCheckboxChange_reapplies_rules exPermConfig .formView true exState).1,
   (onCheckboxChange_reapplies_rules exPermConfig .formView true exState).2.1,
   (onCheckboxChange_reapplies_rules exPermConfig .formView true exState).2.2
     .formEdit (by decide)⟩

/-- C5: every state produced by `applyValidityRules` — hence the constructor's
`applyPropsData` result and the state after every checkbox toggle — satisfies
the invariant that each unchecked partial checkbox has an empty users
list. -/
theorem applyValidityRules_partial_users_invariant (cfg : PermConfig) (s : PermState) :
    partialUsersInvariant (applyValidityRules cfg s) ∧
    ∀ (id : Checkbox) (isChecked : Bool),
      partialUsersInvariant (onCheckboxChange cfg id isChecked s) := by
  constructor
  · rw [applyValidityRules_eq_passes]
    exact cleanupPass_invariant _
  · intro id isChecked
    unfold onCheckboxChange
    rw [applyValidityRules_eq_passes]
    exact cleanupPass_invariant _

/-- Witness for C5 at a concrete input. -/
theorem applyValidityRules_partial_users_invariant_witness :
    partialUsersInvariant (applyValidityRules exPermConfig exState) :=
  (applyValidityRules_partial_users_invariant exPermConfig exState).1

/-- C3: with submission enabled (and the parent's `onSubmitEnd` being a
function), `submit` with a non-empty parse result sets `isSubmitPending` and
dispatches `bulkSetAssetPermissions` with the asset uid and the other users'
permissions (those whose `user` differs from the edited username's user URL)
concatenated with the parsed user's permissions; with an empty parse result
it dispatches nothing and invokes `onSubmitEnd` with `true`. -/
theorem submit_dispatch_spec (env : Env) (s : PermState)
    (hEnabled : isSubmitEnabled s = true)
    (hCb : env.onSubmitEndIsFunction = true) :
    (env.parseFormData (getFormData env s) ≠ [] →
      submit env s =
        ({ s with isSubmitPending := true },
          [Effect.bulkSetAssetPermissions env.uid
            ((env.nonOwnerPerms.filter
                (fun perm => perm.user != env.buildUserUrl s.username))
              ++ env.parseFormData (getFormData env s))])) ∧
    (env.parseFormData (getFormData env s) = [] →
      submit env s = (s, [Effect.submitEnd true])) := by
  have hPend : s.isSubmitPending = false := by
    by_contra hp
    rw [Bool.not_eq_false] at hp
    have hfalse : isSubmitEnabled s = false := by simp [isSubmitEnabled, hp]
    rw [hEnabled] at hfalse
    simp at hfalse
  have hsub : submit env s =
      (if (env.parseFormData (getFormData env s)).length > 0 then
        ({ s with isSubmitPending := true },
          [Effect.bulkSetAssetPermissions env.uid
            ((env.nonOwnerPerms.filter
                (fun perm => perm.user != env.buildUserUrl (getFormData env s).username))
              ++ env.parseFormData (getFormData env s))])
      else (s, notifyParentAboutSubmitEnd env s true)) := by
    unfold submit
    rw [hEnabled]
    rfl
  constructor
  · intro hne
    rw [hsub, if_pos (List.length_pos.mpr hne)]
    rfl
  · intro heq
    rw [hsub, if_neg (by simp [heq])]
    simp [notifyParentAboutSubmitEnd, hPend, hCb]

/-- Witness for C3 at a concrete input (empty parse branch). -/
theorem submit_dispatch_spec_witness :
    isSubmitEnabled exStateEnabled = true ∧
    exEnv.onSubmitEndIsFunction = true ∧
    exEnv.parseFormData (getFormData exEnv exStateEnabled) = [] ∧
    submit exEnv exStateEnabled = (exStateEnabled, [Effect.submitEnd true]) :=
  ⟨by decide, rfl, rfl,
    (submit_dispatch_spec exEnv exStateEnabled (by decide) rfl).2 rfl⟩

/-- C4: both bulk-submission callbacks reset `isSubmitPending` to `false`
and then invoke the parent's `onSubmitEnd` (when it is a function), with
`true` on completion and `false` on failure. -/
theorem bulk_submission_handlers_reset_and_notify (env : Env) (s : PermState) :
    onBulkSetAssetPermissionCompleted env s =
      ({ s with isSubmitPending := false },
        if env.onSubmitEndIsFunction then [Effect.submitEnd true] else []) ∧
    onBulkSetAssetPermissionFailed env s =
      ({ s with isSubmitPending := false },
        if env.onSubmitEndIsFunction then [Effect.submitEnd false] else []) := by
  constructor <;>
    simp [onBulkSetAssetPermissionCompleted, onBulkSetAssetPermissionFailed,
      notifyParentAboutSubmitEnd]

/-- C6: with `username` equal to `ANON_USERNAME`, `isSubmitEnabled` is
`false`, so `submit` changes nothing and dispatches nothing. -/
theorem anonymous_username_blocks_submit (env : Env) (s : PermState)
    (h : s.username = ANON_USERNAME) :
    isSubmitEnabled s = false ∧ submit env s = (s, []) := by
  have hz : isSubmitEnabled s = false := by simp [isSubmitEnabled, h]
  refine ⟨hz, ?_⟩
  simp [submit, hz]

/-- Witness for C6 at a concrete input. -/
theorem anonymous_username_blocks_submit_witness :
    exStateAnon.username = ANON_USERNAME ∧
    isSubmitEnabled exStateAnon = false ∧
    submit exEnv exStateAnon = (exStateAnon, []) :=
  ⟨rfl, (anonymous_username_blocks_submit exEnv exStateAnon rfl).1,
    (anonymous_username_blocks_submit exEnv exStateAnon rfl).2⟩

/-- C7 (as amended): ending username editing with a non-empty username: a
synchronous check answering `false` clears the username field and — when the
browser is online — notifies about the unknown user; `undefined` adds the
username to `usernamesBeingChecked` and dispatches the asynchronous API
check; `true` leaves the username unchanged. -/
theorem onUsernameChangeEnd_spec (env : Env) (s : PermState)
    (h : s.username ≠ "") :
    (checkUsernameSync env s.username = some false →
      onUsernameChangeEnd env s =
        ({ s with isEditingUsername := false, username := "" },
          if env.isOnline then
            [Effect.notifyWarning ("User not found: " ++ s.username)]
          else [])) ∧
    (checkUsernameSync env s.username = none →
      onUsernameChangeEnd env s =
        ({ s with
            isEditingUsername := false,
            usernamesBeingChecked :=
              if s.username ∈ s.usernamesBeingChecked then s.usernamesBeingChecked
              else s.usernamesBeingChecked ++ [s.username] },
          [Effect.checkUsernameAction s.username])) ∧
    (checkUsernameSync env s.username = some true →
      onUsernameChangeEnd env s = ({ s with isEditingUsername := false }, [])) := by
  refine ⟨?_, ?_, ?_⟩ <;> intro hc <;>
    simp [onUsernameChangeEnd, h, hc, checkUsernameSync, checkUsernameAsync,
      notifyUnknownUser] at hc ⊢ <;>
    simp [hc]

/-- Witness for the amended C7 at a concrete input (known username). -/
theorem onUsernameChangeEnd_spec_witness :
    exState.username ≠ "" ∧
    checkUsernameSync exEnv exState.username = some true ∧
    onUsernameChangeEnd exEnv exState = ({ exState with isEditingUsername := false }, []) :=
  ⟨by decide, rfl,
    (onUsernameChangeEnd_spec exEnv exState (by decide)).2.2 rfl⟩

/-- Counterexample to C7 as stated: with the browser offline, a synchronous
check answering `false` clears the username but produces no notification at
all. -/
theorem onUsernameChangeEnd_offline_no_notification :
    exState.username = "bob" ∧
    checkUsernameSync exEnvOffline exState.username = some false ∧
    (onUsernameChangeEnd exEnvOffline exState).1.username = "" ∧
    (onUsernameChangeEnd exEnvOffline exState).2 = [] := by
  refine ⟨rfl, rfl, ?_, ?_⟩ <;> decide

/-- C8: `getFormDataTabs` returns exactly the five tabs Table, Reports,
Gallery, Downloads, Map in that order, each path obtained by substituting
the asset uid for `':uid'` in the corresponding route, and only the Gallery
entry carries an `isDisabled` flag, equal to `hasPartialView`; plus a
concrete substitution example. -/
theorem getFormDataTabs_five_tabs (routes : Routes) (assetUid : String)
    (hasPartialView : Bool) :
    getFormDataTabs routes assetUid hasPartialView =
      [ { label := "Table", iconName := "table",
          path := replaceFirst routes.FORM_TABLE ":uid" assetUid, isDisabled := none },
        { label := "Reports", iconName := "reports",
          path := replaceFirst routes.FORM_REPORT ":uid" assetUid, isDisabled := none },
        { label := "Gallery", iconName := "gallery",
          path := replaceFirst routes.FORM_GALLERY ":uid" assetUid,
          isDisabled := some hasPartialView },
        { label := "Downloads", iconName := "download",
          path := replaceFirst routes.FORM_DOWNLOADS ":uid" assetUid, isDisabled := none },
        { label := "Map", iconName := "map-view",
          path := replaceFirst routes.FORM_MAP ":uid" assetUid, isDisabled := none } ] ∧
    (getFormDataTabs routes assetUid hasPartialView).map (fun tab => tab.isDisabled) =
      [none, none, some hasPartialView, none, none] ∧
    replaceFirst "/forms/:uid/data/table" ":uid" "a1b2" = "/forms/a1b2/data/table" :=
  ⟨rfl, rfl, by decide⟩

/-- C9: the usage dashboard starts at all zeros and, once `getUsage`
resolves, shows storage in millionths of `total_storage_bytes`, the monthly
submission count, `total_nlp_asr_seconds` in minutes, and
`total_nlp_mt_characters` unchanged. -/
theorem usage_dashboard_values (data : UsageApiData) :
    usageDisplayed none =
      { storage := 0, monthlySubmissions := 0,
        transcriptionMinutes := 0, translationChars := 0 } ∧
    usageDisplayed (some data) =
      { storage := data.total_storage_bytes / 1000000,
        monthlySubmissions := data.total_submission_count_current_month,
        transcriptionMinutes := data.total_nlp_asr_seconds / 60,
        translationChars := data.total_nlp_mt_characters } :=
  ⟨rfl, rfl⟩

/-- C10: the Archive and Unarchive buttons of `ProjectQuickActions` render
under the identical condition, so for every asset both appear or neither
does, and neither appears when the asset lacks the `permissions`
property. -/
theorem archive_unarchive_identical_condition
    (userCan : String → QAAsset → Bool) (asset : QAAsset) :
    archiveButtonShown userCan asset = unarchiveButtonShown userCan asset ∧
    (asset.hasPermissionsField = false →
      archiveButtonShown userCan asset = false ∧
      unarchiveButtonShown userCan asset = false) := by
  refine ⟨rfl, fun h => ?_⟩
  constructor <;>
    simp [archiveButtonShown, unarchiveButtonShown, isEditingPossible, h]

/-- Witness for C10 at a concrete input. -/
theorem archive_unarchive_identical_condition_witness :
    archiveButtonShown exUserCan exAssetNoPerms
        = unarchiveButtonShown exUserCan exAssetNoPerms ∧
    exAssetNoPerms.hasPermissionsField = false ∧
    archiveButtonShown exUserCan exAssetNoPerms = false ∧
    unarchiveButtonShown exUserCan exAssetNoPerms = false :=
  ⟨(archive_unarchive_identical_condition exUserCan exAssetNoPerms).1, rfl,
    ((archive_unarchive_identical_condition exUserCan exAssetNoPerms).2 rfl).1,
    ((archive_unarchive_identical_condition exUserCan exAssetNoPerms).2 rfl).2⟩

end Kpi

